import Mathlib

/-!
Shallow embedding of the payroll engine of `backend-v2`
(`src/controllers/payrollController.js`), together with proofs of the
specification's claims about it.

Monetary amounts are modelled as rationals (`ℚ`); JavaScript numeric
operations used by the source (`Math.round`, `Math.min`, `Math.max`) are
modelled exactly on `ℚ`.  Calendar dates (ISO `YYYY-MM-DD` strings compared
by the store) are modelled as integers ordered as the dates are.  The
database tables touched by the controller are modelled as lists of records
in a `Store` structure, and the two stateful endpoints `calculatePayroll`
and `completePayrollRun` as functions from a store to a store paired with
the response outcome.
-/

namespace Payroll

/-- JavaScript `Math.round`: round half toward positive infinity,
mathematically `⌊x + 1/2⌋`. -/
def jsRound (q : ℚ) : ℤ := ⌊q + 1/2⌋

/-- Progressive income tax, from `calculatePAYE` (payrollController.js
lines 10-29): five marginal bands cumulated, then the monthly personal
relief of 2400 is subtracted and the result floored at zero. -/
def calculatePAYE (taxableIncome : ℚ) : ℚ :=
  let personalRelief : ℚ := 2400
  let paye : ℚ :=
    if taxableIncome ≤ 24000 then taxableIncome * 0.10
    else if taxableIncome ≤ 32333 then 2400 + (taxableIncome - 24000) * 0.25
    else if taxableIncome ≤ 500000 then 2400 + 2083.25 + (taxableIncome - 32333) * 0.30
    else if taxableIncome ≤ 800000 then 2400 + 2083.25 + 140300.1 + (taxableIncome - 500000) * 0.325
    else 2400 + 2083.25 + 140300.1 + 97500 + (taxableIncome - 800000) * 0.35
  max 0 (paye - personalRelief)

/-- Result of the tiered pension calculator: the two tier contributions and
their sum, as returned by `calculateNSSF`. -/
structure NSSFTiers where
  tier1 : ℚ
  tier2 : ℚ
  total : ℚ
deriving Repr, DecidableEq

/-- Tiered pension contribution, from `calculateNSSF` (payrollController.js
lines 32-48): 6% of the salary capped at 8000 for tier 1, and 6% of the
part of the salary between 8000 and 72000 for tier 2. -/
def calculateNSSF (basicSalary : ℚ) : NSSFTiers :=
  let tier1_cap : ℚ := 8000
  let tier2_cap : ℚ := 72000
  let nssf_rate : ℚ := 0.06
  let tier1_deduction := min basicSalary tier1_cap * nssf_rate
  let tier2_deduction :=
    if basicSalary > tier1_cap then
      min (basicSalary - tier1_cap) (tier2_cap - tier1_cap) * nssf_rate
    else 0
  { tier1 := tier1_deduction, tier2 := tier2_deduction,
    total := tier1_deduction + tier2_deduction }

/-- Health levy, from `calculateSHIF` (payrollController.js lines 51-54):
2.75% of gross pay, rounded with `Math.round`. -/
def calculateSHIF (grossSalary : ℚ) : ℚ := (jsRound (grossSalary * 0.0275) : ℤ)

/-- Housing levy, from `calculateHousingLevy` (payrollController.js lines
57-60): 1.5% of gross pay, rounded with `Math.round`. -/
def calculateHousingLevy (grossSalary : ℚ) : ℚ := (jsRound (grossSalary * 0.015) : ℤ)

/-- Rounding to the nearest whole currency unit with halves rounded up, as
the specification words the levy rounding rule. -/
def roundHalfUpSpec (q : ℚ) : ℤ := if 1/2 ≤ q - ⌊q⌋ then ⌊q⌋ + 1 else ⌊q⌋

end Payroll

namespace Payroll

/-- Status of a payroll run (`payroll_runs.status`). -/
inductive RunStatus
  | Draft
  | Completed
  | Cancelled
deriving Repr, DecidableEq

/-- A `payroll_runs` row, with the columns the controller reads or writes. -/
structure PayrollRun where
  id : String
  company_id : String
  payroll_number : String
  payroll_month : Nat
  payroll_year : Nat
  payroll_date : ℤ
  status : RunStatus
  total_gross_pay : ℚ
  total_statutory_deductions : ℚ
  total_paye : ℚ
  total_net_pay : ℚ
deriving Repr, DecidableEq

/-- The joined `allowance_type` columns selected by the payroll query. -/
structure AllowanceType where
  name : String
  is_cash : Bool
  is_taxable : Bool
deriving Repr, DecidableEq

/-- An `allowances` row (assignment of an allowance to an employee or a
department), with its joined type. -/
structure Allowance where
  company_id : String
  employee_id : Option String
  department_id : Option String
  allowance_type : AllowanceType
  name : String
  calculation_type : String
  value : ℚ
  is_active : Bool
  start_date : Option ℤ
  end_date : Option ℤ
deriving Repr, DecidableEq

/-- The joined `deduction_type` columns selected by the payroll query. -/
structure DeductionType where
  name : String
  is_tax_deductible : Bool
deriving Repr, DecidableEq

/-- A `deductions` row (assignment of a custom deduction to an employee or
a department), with its joined type. -/
structure Deduction where
  company_id : String
  employee_id : Option String
  department_id : Option String
  deduction_type : DeductionType
  name : String
  calculation_type : String
  value : ℚ
  is_active : Bool
  is_one_time : Bool
  start_date : Option ℤ
  end_date : Option ℤ
deriving Repr, DecidableEq

/-- An `employees` row, with the columns the payroll controller reads.  The
`pays_shif` flag exists on the table (it is read and written by
statutoryController.js) but is never consulted by the payroll computation,
which gates the health levy on `shif_number` instead. -/
structure Employee where
  id : String
  company_id : String
  department_id : String
  salary : ℚ
  employee_status : String
  shif_number : Option String
  pays_paye : Bool
  pays_nssf : Bool
  pays_shif : Bool
  pays_housing_levy : Bool
  pays_helb : Bool
deriving Repr, DecidableEq

/-- A `helb_deductions` row: the employee's loan ledger entry. -/
structure HelbDeduction where
  employee_id : String
  monthly_deduction : ℚ
  balance : ℚ
deriving Repr, DecidableEq

/-- An `employee_bank_details` row, with the columns the controller reads. -/
structure BankDetail where
  employee_id : String
  payment_method : Option String
  bank_name : Option String
  account_number : Option String
  phone_number : Option String
deriving Repr, DecidableEq

/-- One entry of the `allowances_details` snapshot stored on a detail row. -/
structure AllowanceLine where
  name : String
  value : ℚ
  is_cash : Bool
  is_taxable : Bool
deriving Repr, DecidableEq

/-- One entry of the `deductions_details` snapshot stored on a detail row. -/
structure DeductionLine where
  name : String
  value : ℚ
  is_tax_deductible : Bool
deriving Repr, DecidableEq

/-- A `payroll_details` row, as assembled by `calculatePayroll`
(payrollController.js lines 264-288). -/
structure PayrollDetail where
  payroll_run_id : String
  employee_id : String
  basic_salary : ℚ
  total_allowances : ℚ
  total_non_cash_benefits : ℚ
  total_deductions : ℚ
  total_statutory_deductions : ℚ
  gross_pay : ℚ
  taxable_income : ℚ
  paye_tax : ℚ
  nssf_deduction : ℚ
  nssf_tier1_deduction : ℚ
  nssf_tier2_deduction : ℚ
  shif_deduction : ℚ
  helb_deduction : ℚ
  housing_levy_deduction : ℚ
  net_pay : ℚ
  payment_method : Option String
  bank_name : Option String
  account_name : Option String
  mpesa_phone : Option String
  allowances_details : List AllowanceLine
  deductions_details : List DeductionLine
deriving Repr, DecidableEq

/-- The database state touched by the payroll controller: one list per
table. -/
structure Store where
  payroll_runs : List PayrollRun
  payroll_details : List PayrollDetail
  employees : List Employee
  employee_bank_details : List BankDetail
  allowances : List Allowance
  deductions : List Deduction
  helb_deductions : List HelbDeduction
deriving Repr, DecidableEq

/-- JavaScript truthiness of the `shif_number` column: a string is truthy
unless it is absent (`null`) or empty. -/
def strTruthy : Option String → Bool
  | none => false
  | some s => s != ""

/-- The allowance filter of payrollController.js lines 158-164: targeted at
the employee or their department, active, end date absent or at/after the
calculation date, and belonging to the company.  The query never consults
`start_date`. -/
def allowanceApplies (companyId : String) (e : Employee) (today : ℤ) (a : Allowance) : Bool :=
  (a.employee_id == some e.id || a.department_id == some e.department_id) &&
  a.is_active &&
  (match a.end_date with
   | none => true
   | some d => decide (today ≤ d)) &&
  (a.company_id == companyId)

/-- The deduction filter of payrollController.js lines 191-197; same shape
as the allowance filter. -/
def deductionApplies (companyId : String) (e : Employee) (today : ℤ) (d : Deduction) : Bool :=
  (d.employee_id == some e.id || d.department_id == some e.department_id) &&
  d.is_active &&
  (match d.end_date with
   | none => true
   | some dt => decide (today ≤ dt)) &&
  (d.company_id == companyId)

/-- Value of one allowance (payrollController.js lines 168-174): the fixed
amount, or the percentage of base salary, else zero. -/
def allowanceValue (basicSalary : ℚ) (a : Allowance) : ℚ :=
  if a.calculation_type = "Fixed" then a.value
  else if a.calculation_type = "Percentage" then basicSalary * (a.value / 100)
  else 0

/-- Value of one custom deduction (payrollController.js lines 201-207). -/
def deductionValue (basicSalary : ℚ) (d : Deduction) : ℚ :=
  if d.calculation_type = "Fixed" then d.value
  else if d.calculation_type = "Percentage" then basicSalary * (d.value / 100)
  else 0

/-- The per-employee body of the calculation loop (payrollController.js
lines 149-288): resolve variable pay, compute the statutory deductions and
derived amounts, and assemble the detail row to be persisted. -/
def computeEmployeeDetail (st : Store) (companyId payrollRunId : String) (today : ℤ)
    (e : Employee) : PayrollDetail :=
  let basicSalary := e.salary
  let allowances := st.allowances.filter (allowanceApplies companyId e today)
  let totalAllowances :=
    ((allowances.filter (fun a => a.allowance_type.is_cash)).map (allowanceValue basicSalary)).sum
  let totalNonCashBenefits :=
    ((allowances.filter (fun a => !a.allowance_type.is_cash)).map (allowanceValue basicSalary)).sum
  let allowancesDetails := allowances.map (fun a =>
    { name := a.name, value := allowanceValue basicSalary a,
      is_cash := a.allowance_type.is_cash, is_taxable := a.allowance_type.is_taxable })
  let deductions := st.deductions.filter (deductionApplies companyId e today)
  let totalCustomDeductions := (deductions.map (deductionValue basicSalary)).sum
  let deductionsDetails := deductions.map (fun d =>
    { name := d.name, value := deductionValue basicSalary d,
      is_tax_deductible := d.deduction_type.is_tax_deductible })
  let grossPay := basicSalary + totalAllowances
  let nssfTiers := if e.pays_nssf then calculateNSSF basicSalary else ⟨0, 0, 0⟩
  let nssfDeduction := nssfTiers.total
  let shifDeduction := if strTruthy e.shif_number then calculateSHIF grossPay else 0
  let housingLevyDeduction := if e.pays_housing_levy then calculateHousingLevy grossPay else 0
  let helbDeduction :=
    if e.pays_helb then
      match st.helb_deductions.find? (fun h => h.employee_id == e.id) with
      | some h => h.monthly_deduction
      | none => 0
    else 0
  let taxableIncome :=
    grossPay - nssfDeduction - shifDeduction - housingLevyDeduction - helbDeduction -
      totalCustomDeductions
  let payeTax := if e.pays_paye then calculatePAYE taxableIncome else 0
  let totalStatutoryDeductionsPerEmployee :=
    nssfDeduction + shifDeduction + housingLevyDeduction + helbDeduction + payeTax
  let totalDeductions := totalStatutoryDeductionsPerEmployee + totalCustomDeductions
  let netPay := grossPay + totalNonCashBenefits - totalDeductions
  let bank := st.employee_bank_details.find? (fun b => b.employee_id == e.id)
  { payroll_run_id := payrollRunId
    employee_id := e.id
    basic_salary := basicSalary
    total_allowances := totalAllowances
    total_non_cash_benefits := totalNonCashBenefits
    total_deductions := totalDeductions
    total_statutory_deductions := totalStatutoryDeductionsPerEmployee
    gross_pay := grossPay
    taxable_income := taxableIncome
    paye_tax := payeTax
    nssf_deduction := nssfDeduction
    nssf_tier1_deduction := nssfTiers.tier1
    nssf_tier2_deduction := nssfTiers.tier2
    shif_deduction := shifDeduction
    helb_deduction := helbDeduction
    housing_levy_deduction := housingLevyDeduction
    net_pay := netPay
    payment_method := bank.bind (fun b => b.payment_method)
    bank_name := bank.bind (fun b => b.bank_name)
    account_name := bank.bind (fun b => b.account_number)
    mpesa_phone := bank.bind (fun b => b.phone_number)
    allowances_details := allowancesDetails
    deductions_details := deductionsDetails }

end Payroll

namespace Payroll

/-- JavaScript `String.prototype.padStart` with a single pad character. -/
def padStart (s : String) (targetLength : Nat) (c : Char) : String :=
  String.mk (List.replicate (targetLength - s.length) c) ++ s

/-- The runs stored for one (company, month, year) period, in store order;
the period lookup of payrollController.js lines 75-81 takes the head. -/
def periodRuns (st : Store) (companyId : String) (month year : Nat) : List PayrollRun :=
  st.payroll_runs.filter (fun r =>
    r.company_id == companyId && r.payroll_month == month && r.payroll_year == year)

/-- Deletion of a run and its detail rows (payrollController.js lines
91-92). -/
def deleteRunById (st : Store) (runId : String) : Store :=
  { st with
    payroll_runs := st.payroll_runs.filter (fun r => !(r.id == runId)),
    payroll_details := st.payroll_details.filter (fun d => !(d.payroll_run_id == runId)) }

/-- Outcome of a `calculatePayroll` request, by response status. -/
inductive CalcResult
  | badRequest
  | conflict
  | noActiveEmployees
  | ok
deriving Repr, DecidableEq

/-- The `payroll_number` built at payrollController.js lines 96-106: the
count of runs stored for the period feeds a `PR-year-month-seq` string. -/
def payrollNumberFor (st : Store) (companyId : String) (month year : Nat) : String :=
  "PR-" ++ toString year ++ "-" ++ padStart (toString month) 2 '0' ++ "-" ++
    padStart (toString ((periodRuns st companyId month year).length + 1)) 3 '0'

/-- The active-employee query of payrollController.js lines 109-113. -/
def activeEmployees (st : Store) (companyId : String) : List Employee :=
  st.employees.filter (fun e => e.company_id == companyId && e.employee_status == "Active")

/-- The fresh run inserted at payrollController.js lines 132-140: Draft
status, with the aggregate totals still unset (zero). -/
def newDraftRun (st : Store) (companyId : String) (month year : Nat) (newRunId : String)
    (today : ℤ) : PayrollRun :=
  { id := newRunId, company_id := companyId,
    payroll_number := payrollNumberFor st companyId month year,
    payroll_month := month, payroll_year := year, payroll_date := today,
    status := .Draft, total_gross_pay := 0, total_statutory_deductions := 0,
    total_paye := 0, total_net_pay := 0 }

/-- The totals update of payrollController.js lines 300-305, applied to the
run whose id matches. -/
def applyRunTotals (newRunId : String) (grossSum statutorySum payeSum netSum : ℚ)
    (r : PayrollRun) : PayrollRun :=
  if r.id == newRunId then
    { r with total_gross_pay := grossSum, total_statutory_deductions := statutorySum,
             total_paye := payeSum, total_net_pay := netSum }
  else r

/-- Steps 2-8 of `calculatePayroll` (payrollController.js lines 95-307),
reached after the existing-run check: load active employees (404 when
none), insert the new Draft run carrying the generated payroll number,
compute and insert one detail per employee, and write the accumulated run
totals. -/
def calculatePayrollBody (st : Store) (companyId : String) (month year : Nat)
    (newRunId : String) (today : ℤ) : Store × CalcResult :=
  let employees := activeEmployees st companyId
  if employees.isEmpty then (st, .noActiveEmployees)
  else
    let details := employees.map (computeEmployeeDetail st companyId newRunId today)
    ({ st with
       payroll_runs :=
         (st.payroll_runs ++ [newDraftRun st companyId month year newRunId today]).map
           (applyRunTotals newRunId ((details.map (fun d => d.gross_pay)).sum)
             ((details.map (fun d => d.total_statutory_deductions)).sum)
             ((details.map (fun d => d.paye_tax)).sum)
             ((details.map (fun d => d.net_pay)).sum)),
       payroll_details := st.payroll_details ++ details }, .ok)

/-- The `calculatePayroll` endpoint (payrollController.js lines 64-313).
`newRunId` stands for the fresh `uuidv4()`; `today` for the calculation
date.  A falsy (zero) month or year is rejected up front; an existing
Completed run for the period yields a 409 conflict before any write; any
other existing run is deleted together with its details before the body
runs. -/
def calculatePayroll (st : Store) (companyId : String) (month year : Nat)
    (newRunId : String) (today : ℤ) : Store × CalcResult :=
  if month = 0 ∨ year = 0 then (st, .badRequest)
  else
    match (periodRuns st companyId month year).head? with
    | some existingRun =>
      if existingRun.status = .Completed then (st, .conflict)
      else calculatePayrollBody (deleteRunById st existingRun.id) companyId month year newRunId today
    | none => calculatePayrollBody st companyId month year newRunId today

/-- Outcome of a `completePayrollRun` request, by response status. -/
inductive CompleteResult
  | notFound
  | invalidState
  | storeFailure
  | ok
deriving Repr, DecidableEq

/-- Modelled from the spec: the `update_helb_balance` database function the
controller invokes by RPC is not part of the repository source; section 4.3
of the specification describes it as `applyDeduction(employeeId, amount)`,
which "reduces the ledger balance by `amount`". -/
def update_helb_balance (helb : List HelbDeduction) (employeeId : String) (amount : ℚ) :
    List HelbDeduction :=
  helb.map (fun h =>
    if h.employee_id == employeeId then { h with balance := h.balance - amount } else h)

/-- The HELB loop of `completePayrollRun` (payrollController.js lines
341-348): one balance reduction per detail whose loan deduction is
positive. -/
def applyHelbUpdates (helb : List HelbDeduction) (details : List PayrollDetail) :
    List HelbDeduction :=
  details.foldl (fun acc d =>
    if 0 < d.helb_deduction then update_helb_balance acc d.employee_id d.helb_deduction
    else acc) helb

/-- The `completePayrollRun` endpoint (payrollController.js lines 315-372),
with the commit of the final status update made explicit: the source
performs the ledger reductions and the one-time-deduction deactivation
first and only then issues the status update, whose failure
(`updateError`) is reported as a 500 after those writes have happened.
`statusUpdateCommits` selects between the two outcomes of that last
write. -/
def completePayrollRunWith (st : Store) (payrollRunId : String)
    (statusUpdateCommits : Bool) : Store × CompleteResult :=
  match st.payroll_runs.find? (fun r => r.id == payrollRunId) with
  | none => (st, .notFound)
  | some run =>
    if run.status ≠ .Draft then (st, .invalidState)
    else
      let details := st.payroll_details.filter (fun d => d.payroll_run_id == payrollRunId)
      let st1 := { st with
        helb_deductions := applyHelbUpdates st.helb_deductions details,
        deductions := st.deductions.map (fun d =>
          if d.is_one_time && d.company_id == run.company_id then { d with is_active := false }
          else d) }
      if statusUpdateCommits then
        ({ st1 with payroll_runs := st1.payroll_runs.map (fun r =>
            if r.id == payrollRunId then { r with status := .Completed } else r) }, .ok)
      else (st1, .storeFailure)

/-- The `completePayrollRun` endpoint in the execution where every store
write succeeds. -/
def completePayrollRun (st : Store) (payrollRunId : String) : Store × CompleteResult :=
  completePayrollRunWith st payrollRunId true

end Payroll

namespace Payroll

/-- Sum of the positive loan deductions a list of details records for one
employee; used to state what one pass of the HELB loop does to a ledger
entry. -/
def posHelbSum (details : List PayrollDetail) (employeeId : String) : ℚ :=
  ((details.filter (fun d => d.employee_id == employeeId && decide (0 < d.helb_deduction))).map
    (fun d => d.helb_deduction)).sum

/-- The assignment-selection rule as the specification words it, for
comparison with the implemented filter: the validity window must contain
the as-of date, so the start of the window must be at or before it and the
end absent or at or after it. -/
def allowanceAppliesSpec (companyId : String) (e : Employee) (asOf : ℤ) (a : Allowance) : Bool :=
  (a.employee_id == some e.id || a.department_id == some e.department_id) &&
  a.is_active &&
  (match a.start_date with
   | none => true
   | some s => decide (s ≤ asOf)) &&
  (match a.end_date with
   | none => true
   | some d => decide (asOf ≤ d)) &&
  (a.company_id == companyId)

/-- A sample active employee enrolled in every scheme except the loan. -/
def wEmployee : Employee :=
  { id := "e1", company_id := "c1", department_id := "d1", salary := 50000,
    employee_status := "Active", shif_number := some "SH1", pays_paye := true,
    pays_nssf := true, pays_shif := true, pays_housing_levy := true, pays_helb := false }

/-- A sample active employee opted out of every scheme, with no SHIF
number. -/
def optOutEmployee : Employee :=
  { id := "e2", company_id := "c1", department_id := "d1", salary := 30000,
    employee_status := "Active", shif_number := none, pays_paye := false,
    pays_nssf := false, pays_shif := false, pays_housing_levy := false, pays_helb := false }

/-- A store holding just the sample employee. -/
def wStore : Store :=
  { payroll_runs := [], payroll_details := [], employees := [wEmployee],
    employee_bank_details := [], allowances := [], deductions := [],
    helb_deductions := [] }

/-- A Draft run for the period (c1, 1, 2025). -/
def dRun : PayrollRun :=
  { id := "run1", company_id := "c1", payroll_number := "PR-2025-01-001",
    payroll_month := 1, payroll_year := 2025, payroll_date := 0, status := .Draft,
    total_gross_pay := 0, total_statutory_deductions := 0, total_paye := 0,
    total_net_pay := 0 }

/-- A store holding the sample employee and an existing Draft run for
(c1, 1, 2025). -/
def dStore : Store :=
  { payroll_runs := [dRun], payroll_details := [], employees := [wEmployee],
    employee_bank_details := [], allowances := [], deductions := [],
    helb_deductions := [] }

/-- An assignment whose validity window has not started yet on day 50. -/
def futureAllowance : Allowance :=
  { company_id := "c1", employee_id := some "e1", department_id := none,
    allowance_type := { name := "Bonus", is_cash := true, is_taxable := true },
    name := "Bonus", calculation_type := "Fixed", value := 500, is_active := true,
    start_date := some 100, end_date := none }

/-- A store holding the sample employee and the future-dated allowance. -/
def c7Store : Store :=
  { payroll_runs := [], payroll_details := [], employees := [wEmployee],
    employee_bank_details := [], allowances := [futureAllowance], deductions := [],
    helb_deductions := [] }

/-- A Draft run used to exercise the completion endpoint. -/
def c6Run : PayrollRun :=
  { id := "run6", company_id := "c1", payroll_number := "PR-2025-01-001",
    payroll_month := 1, payroll_year := 2025, payroll_date := 0, status := .Draft,
    total_gross_pay := 0, total_statutory_deductions := 0, total_paye := 0,
    total_net_pay := 0 }

/-- A detail row of that run with a positive loan deduction. -/
def c6Detail : PayrollDetail :=
  { payroll_run_id := "run6", employee_id := "e1", basic_salary := 40000,
    total_allowances := 0, total_non_cash_benefits := 0, total_deductions := 1000,
    total_statutory_deductions := 1000, gross_pay := 40000, taxable_income := 39000,
    paye_tax := 0, nssf_deduction := 0, nssf_tier1_deduction := 0,
    nssf_tier2_deduction := 0, shif_deduction := 0, helb_deduction := 1000,
    housing_levy_deduction := 0, net_pay := 39000, payment_method := none,
    bank_name := none, account_name := none, mpesa_phone := none,
    allowances_details := [], deductions_details := [] }

/-- A store with a Draft run, its detail carrying a 1000 loan deduction,
and a loan ledger entry with balance 9000. -/
def c6Store : Store :=
  { payroll_runs := [c6Run], payroll_details := [c6Detail], employees := [],
    employee_bank_details := [], allowances := [], deductions := [],
    helb_deductions := [{ employee_id := "e1", monthly_deduction := 1000, balance := 9000 }] }

/-- An active employee whose stored salary is negative. -/
def negEmployee : Employee :=
  { id := "e9", company_id := "c9", department_id := "d9", salary := -1000,
    employee_status := "Active", shif_number := none, pays_paye := true,
    pays_nssf := true, pays_shif := false, pays_housing_levy := false, pays_helb := false }

/-- A store holding only the negative-salary employee. -/
def negStore : Store :=
  { payroll_runs := [], payroll_details := [], employees := [negEmployee],
    employee_bank_details := [], allowances := [], deductions := [],
    helb_deductions := [] }

end Payroll

namespace Payroll

/-- PAYE before relief is non-decreasing across the five bands. -/
lemma paye_bands_mono {x y : ℚ} (h : x ≤ y) :
    (if x ≤ 24000 then x * 0.10
     else if x ≤ 32333 then 2400 + (x - 24000) * 0.25
     else if x ≤ 500000 then 2400 + 2083.25 + (x - 32333) * 0.30
     else if x ≤ 800000 then 2400 + 2083.25 + 140300.1 + (x - 500000) * 0.325
     else 2400 + 2083.25 + 140300.1 + 97500 + (x - 800000) * 0.35) ≤
    (if y ≤ 24000 then y * 0.10
     else if y ≤ 32333 then 2400 + (y - 24000) * 0.25
     else if y ≤ 500000 then 2400 + 2083.25 + (y - 32333) * 0.30
     else if y ≤ 800000 then 2400 + 2083.25 + 140300.1 + (y - 500000) * 0.325
     else 2400 + 2083.25 + 140300.1 + 97500 + (y - 800000) * 0.35) := by
  split_ifs <;> norm_num <;> linarith

/-- Monotonicity of the income-tax calculator. -/
lemma calculatePAYE_mono {x y : ℚ} (h : x ≤ y) : calculatePAYE x ≤ calculatePAYE y := by
  unfold calculatePAYE
  exact max_le_max le_rfl (by have := paye_bands_mono h; linarith)

/-- The income-tax calculator returns zero exactly on the relief-covered
range. -/
lemma calculatePAYE_zero_iff {x : ℚ} (hx : 0 ≤ x) : calculatePAYE x = 0 ↔ x ≤ 24000 := by
  unfold calculatePAYE
  constructor
  · intro h
    by_contra hgt
    push_neg at hgt
    split_ifs at h with h1 h2 h3 h4 <;> [linarith; skip; skip; skip; skip] <;>
      rw [max_eq_right (by linarith)] at h <;> linarith
  · intro h
    rw [if_pos h, max_eq_left (by linarith)]

/-- The income-tax calculator never returns a negative amount. -/
lemma calculatePAYE_nonneg (x : ℚ) : 0 ≤ calculatePAYE x := le_max_left 0 _

/-- Closed form of the tier-1 pension contribution. -/
lemma calculateNSSF_tier1 (b : ℚ) :
    (calculateNSSF b).tier1 = 0.06 * min b 8000 := by
  unfold calculateNSSF
  dsimp only
  ring

/-- Closed form of the tier-2 pension contribution. -/
lemma calculateNSSF_tier2 (b : ℚ) :
    (calculateNSSF b).tier2 = 0.06 * min (max (b - 8000) 0) (72000 - 8000) := by
  unfold calculateNSSF
  dsimp only
  split_ifs with h
  · rw [max_eq_left (by linarith)]; ring
  · rw [max_eq_right (by linarith), min_eq_left (by norm_num)]; ring

/-- The reported pension total is the sum of the two tiers. -/
lemma calculateNSSF_total (b : ℚ) :
    (calculateNSSF b).total = (calculateNSSF b).tier1 + (calculateNSSF b).tier2 := by
  unfold calculateNSSF
  dsimp only

/-- The pension total never exceeds the rate times the upper ceiling. -/
lemma calculateNSSF_cap (b : ℚ) : (calculateNSSF b).total ≤ 0.06 * 72000 := by
  unfold calculateNSSF
  dsimp only
  have h1 : min b 8000 * 0.06 ≤ 8000 * 0.06 :=
    mul_le_mul_of_nonneg_right (min_le_right _ _) (by norm_num)
  split_ifs with h
  · have h2 : min (b - 8000) (72000 - 8000) * 0.06 ≤ (72000 - 8000) * 0.06 :=
      mul_le_mul_of_nonneg_right (min_le_right _ _) (by norm_num)
    linarith
  · linarith

/-- JavaScript rounding and the specification's round-half-up rule agree on
every rational. -/
lemma jsRound_eq_roundHalfUpSpec (q : ℚ) : jsRound q = roundHalfUpSpec q := by
  unfold jsRound roundHalfUpSpec
  have h0 : (⌊q⌋ : ℚ) ≤ q := Int.floor_le q
  have h1 : q < ⌊q⌋ + 1 := Int.lt_floor_add_one q
  split_ifs with h
  · rw [Int.floor_eq_iff]
    constructor
    · push_cast
      linarith
    · push_cast
      linarith
  · push_neg at h
    rw [Int.floor_eq_iff]
    constructor
    · push_cast
      linarith
    · linarith

/-- The derived amounts of a computed detail row satisfy the gross, taxable
and net identities. -/
lemma computeEmployeeDetail_identities (st : Store) (c rid : String) (t : ℤ) (e : Employee) :
    (computeEmployeeDetail st c rid t e).gross_pay =
      (computeEmployeeDetail st c rid t e).basic_salary +
      (computeEmployeeDetail st c rid t e).total_allowances ∧
    (computeEmployeeDetail st c rid t e).taxable_income =
      (computeEmployeeDetail st c rid t e).gross_pay -
      (computeEmployeeDetail st c rid t e).nssf_deduction -
      (computeEmployeeDetail st c rid t e).shif_deduction -
      (computeEmployeeDetail st c rid t e).housing_levy_deduction -
      (computeEmployeeDetail st c rid t e).helb_deduction -
      ((computeEmployeeDetail st c rid t e).total_deductions -
       (computeEmployeeDetail st c rid t e).total_statutory_deductions) ∧
    (computeEmployeeDetail st c rid t e).net_pay =
      (computeEmployeeDetail st c rid t e).gross_pay +
      (computeEmployeeDetail st c rid t e).total_non_cash_benefits -
      (computeEmployeeDetail st c rid t e).total_deductions ∧
    (computeEmployeeDetail st c rid t e).total_statutory_deductions =
      (computeEmployeeDetail st c rid t e).nssf_deduction +
      (computeEmployeeDetail st c rid t e).shif_deduction +
      (computeEmployeeDetail st c rid t e).housing_levy_deduction +
      (computeEmployeeDetail st c rid t e).helb_deduction +
      (computeEmployeeDetail st c rid t e).paye_tax := by
  unfold computeEmployeeDetail
  dsimp only
  refine ⟨rfl, by ring, by ring, rfl⟩

/-- Every detail row a successful body pass adds comes from the per-employee
computation. -/
lemma calculatePayrollBody_new_details (base : Store) (c : String) (m y : Nat)
    (nid : String) (t : ℤ)
    (hok : (calculatePayrollBody base c m y nid t).2 = .ok) :
    ∀ d ∈ (calculatePayrollBody base c m y nid t).1.payroll_details,
      d ∉ base.payroll_details → ∃ e, d = computeEmployeeDetail base c nid t e := by
  by_cases hemp : (activeEmployees base c).isEmpty
  · rw [calculatePayrollBody, if_pos hemp] at hok
    cases hok
  · rw [calculatePayrollBody, if_neg hemp]
    intro d hd hnot
    rcases List.mem_append.mp hd with h1 | h2
    · exact absurd h1 hnot
    · rw [List.mem_map] at h2
      obtain ⟨e, _, he⟩ := h2
      exact ⟨e, he.symm⟩

end Payroll

namespace Payroll

/-- One pass of the HELB loop subtracts, from every ledger entry, exactly
the sum of the positive loan deductions its employee has among the
processed details. -/
lemma applyHelbUpdates_eq (details : List PayrollDetail) (helb : List HelbDeduction) :
    applyHelbUpdates helb details = helb.map (fun h =>
      { h with balance := h.balance - posHelbSum details h.employee_id }) := by
  induction details generalizing helb with
  | nil =>
    simp [applyHelbUpdates, posHelbSum]
  | cons d ds ih =>
    by_cases hp : 0 < d.helb_deduction
    · have hd : decide (0 < d.helb_deduction) = true := by simp [hp]
      have step : applyHelbUpdates helb (d :: ds) =
          applyHelbUpdates (update_helb_balance helb d.employee_id d.helb_deduction) ds := by
        simp [applyHelbUpdates, hp]
      rw [step, ih, update_helb_balance, List.map_map]
      apply List.map_congr_left
      intro h _
      simp only [Function.comp_apply]
      by_cases he : h.employee_id = d.employee_id
      · have hb1 : (h.employee_id == d.employee_id) = true := by simp [he]
        have hb2 : (d.employee_id == h.employee_id) = true := by simp [he]
        have hcond : (d.employee_id == h.employee_id && decide (0 < d.helb_deduction)) = true := by
          rw [hb2, hd]
          rfl
        simp only [hb1, if_pos, posHelbSum, List.filter_cons, hcond, if_true, List.map_cons,
          List.sum_cons]
        have : h.balance - d.helb_deduction -
            ((ds.filter (fun x => x.employee_id == h.employee_id &&
              decide (0 < x.helb_deduction))).map (fun x => x.helb_deduction)).sum =
            h.balance - (d.helb_deduction +
            ((ds.filter (fun x => x.employee_id == h.employee_id &&
              decide (0 < x.helb_deduction))).map (fun x => x.helb_deduction)).sum) := by
          ring
        rw [this]
      · have hb1 : (h.employee_id == d.employee_id) = false := by simp [he]
        have hb2 : (d.employee_id == h.employee_id) = false := by
          simp only [beq_eq_false_iff_ne, ne_eq]
          exact fun hx => he hx.symm
        have hcond : (d.employee_id == h.employee_id && decide (0 < d.helb_deduction)) = false := by
          rw [hb2]
          rfl
        simp only [hb1, Bool.false_eq_true, if_false, posHelbSum, List.filter_cons, hcond,
          Bool.false_eq_true, if_false]
    · have hd : decide (0 < d.helb_deduction) = false := by simp [hp]
      have step : applyHelbUpdates helb (d :: ds) = applyHelbUpdates helb ds := by
        simp [applyHelbUpdates, hp]
      rw [step, ih]
      apply List.map_congr_left
      intro h _
      have hcond : (d.employee_id == h.employee_id && decide (0 < d.helb_deduction)) = false := by
        rw [hd, Bool.and_false]
      simp only [posHelbSum, List.filter_cons, hcond, Bool.false_eq_true, if_false]

/-- A found element satisfies the search predicate. -/
lemma find?_pred {α : Type} (p : α → Bool) (l : List α) (a : α)
    (h : l.find? p = some a) : p a = true :=
  List.find?_some h

/-- Searching by id commutes with the status update, which preserves ids. -/
lemma find?_status_map (l : List PayrollRun) (rid : String) :
    (l.map (fun r => if r.id == rid then { r with status := RunStatus.Completed } else r)).find?
        (fun r => r.id == rid) =
      (l.find? (fun r => r.id == rid)).map
        (fun r => if r.id == rid then { r with status := RunStatus.Completed } else r) := by
  rw [List.find?_map]
  have hcomp : ((fun r : PayrollRun => r.id == rid) ∘
      (fun r => if r.id == rid then { r with status := RunStatus.Completed } else r)) =
      fun r : PayrollRun => r.id == rid := by
    funext r
    by_cases h : r.id = rid <;> simp [Function.comp_apply, h]
  rw [hcomp]

/-- Completion of a run that is not in Draft fails without touching the
store. -/
lemma completePayrollRun_not_draft (st : Store) (rid : String) (run : PayrollRun)
    (hfind : st.payroll_runs.find? (fun r => r.id == rid) = some run)
    (hst : run.status ≠ .Draft) : completePayrollRun st rid = (st, .invalidState) := by
  unfold completePayrollRun completePayrollRunWith
  rw [hfind]
  simp [hst]

/-- The totals update leaves the run id unchanged. -/
lemma applyRunTotals_id (nid : String) (g s p n : ℚ) (r : PayrollRun) :
    (applyRunTotals nid g s p n r).id = r.id := by
  unfold applyRunTotals
  by_cases h : r.id == nid <;> simp [h]

/-- The totals update leaves the run status unchanged. -/
lemma applyRunTotals_status (nid : String) (g s p n : ℚ) (r : PayrollRun) :
    (applyRunTotals nid g s p n r).status = r.status := by
  unfold applyRunTotals
  by_cases h : r.id == nid <;> simp [h]

/-- The totals update leaves the period predicate unchanged. -/
lemma applyRunTotals_period (c : String) (m y : Nat) (nid : String) (g s p n : ℚ)
    (r : PayrollRun) :
    ((applyRunTotals nid g s p n r).company_id == c &&
      (applyRunTotals nid g s p n r).payroll_month == m &&
      (applyRunTotals nid g s p n r).payroll_year == y) =
    (r.company_id == c && r.payroll_month == m && r.payroll_year == y) := by
  unfold applyRunTotals
  by_cases h : r.id == nid <;> simp [h]

end Payroll

namespace Payroll

/-- C1: every detail row persisted by a successful `calculatePayroll` call
satisfies gross pay = base salary + cash allowances, taxable income =
gross pay minus pension, health levy, housing levy, loan deduction and
custom deductions (the custom part being total deductions minus statutory
deductions), and net pay = gross pay + non-cash benefit value minus total
deductions, where total deductions consist of the statutory deductions
(pension, health, housing, loan and income tax) plus the custom ones. -/
theorem calculatePayroll_detail_equations (st : Store) (c : String) (m y : Nat)
    (nid : String) (t : ℤ)
    (hok : (calculatePayroll st c m y nid t).2 = .ok) :
    ∀ d ∈ (calculatePayroll st c m y nid t).1.payroll_details,
      d ∉ st.payroll_details →
        d.gross_pay = d.basic_salary + d.total_allowances ∧
        d.taxable_income = d.gross_pay - d.nssf_deduction - d.shif_deduction -
          d.housing_levy_deduction - d.helb_deduction -
          (d.total_deductions - d.total_statutory_deductions) ∧
        d.net_pay = d.gross_pay + d.total_non_cash_benefits - d.total_deductions ∧
        d.total_statutory_deductions = d.nssf_deduction + d.shif_deduction +
          d.housing_levy_deduction + d.helb_deduction + d.paye_tax := by
  unfold calculatePayroll at hok ⊢
  by_cases h0 : m = 0 ∨ y = 0
  · rw [if_pos h0] at hok
    cases hok
  · rw [if_neg h0] at hok ⊢
    rcases hh : (periodRuns st c m y).head? with _ | er
    · rw [hh] at hok
      intro d hd hnot
      obtain ⟨e, he⟩ := calculatePayrollBody_new_details st c m y nid t hok d hd hnot
      subst he
      exact computeEmployeeDetail_identities st c nid t e
    · rw [hh] at hok
      have hok2 : (if er.status = RunStatus.Completed then (st, CalcResult.conflict)
          else calculatePayrollBody (deleteRunById st er.id) c m y nid t).2 =
          CalcResult.ok := hok
      by_cases hco : er.status = .Completed
      · rw [if_pos hco] at hok2
        cases hok2
      · rw [if_neg hco] at hok2
        intro d hd hnot
        have hd2 : d ∈ (if er.status = RunStatus.Completed then (st, CalcResult.conflict)
            else calculatePayrollBody (deleteRunById st er.id) c m y nid t).1.payroll_details :=
          hd
        rw [if_neg hco] at hd2
        have hnotbase : d ∉ (deleteRunById st er.id).payroll_details := by
          intro hmem
          exact hnot (List.mem_of_mem_filter hmem)
        obtain ⟨e, he⟩ :=
          calculatePayrollBody_new_details (deleteRunById st er.id) c m y nid t hok2 d hd2 hnotbase
        subst he
        exact computeEmployeeDetail_identities (deleteRunById st er.id) c nid t e

/-- Witness for C1: the detail the run persists for the sample employee
satisfies the three balance identities. -/
theorem calculatePayroll_detail_equations_witness :
    (computeEmployeeDetail wStore "c1" "r1" 0 wEmployee).gross_pay =
      (computeEmployeeDetail wStore "c1" "r1" 0 wEmployee).basic_salary +
      (computeEmployeeDetail wStore "c1" "r1" 0 wEmployee).total_allowances ∧
    (computeEmployeeDetail wStore "c1" "r1" 0 wEmployee).taxable_income =
      (computeEmployeeDetail wStore "c1" "r1" 0 wEmployee).gross_pay -
      (computeEmployeeDetail wStore "c1" "r1" 0 wEmployee).nssf_deduction -
      (computeEmployeeDetail wStore "c1" "r1" 0 wEmployee).shif_deduction -
      (computeEmployeeDetail wStore "c1" "r1" 0 wEmployee).housing_levy_deduction -
      (computeEmployeeDetail wStore "c1" "r1" 0 wEmployee).helb_deduction -
      ((computeEmployeeDetail wStore "c1" "r1" 0 wEmployee).total_deductions -
       (computeEmployeeDetail wStore "c1" "r1" 0 wEmployee).total_statutory_deductions) ∧
    (computeEmployeeDetail wStore "c1" "r1" 0 wEmployee).net_pay =
      (computeEmployeeDetail wStore "c1" "r1" 0 wEmployee).gross_pay +
      (computeEmployeeDetail wStore "c1" "r1" 0 wEmployee).total_non_cash_benefits -
      (computeEmployeeDetail wStore "c1" "r1" 0 wEmployee).total_deductions ∧
    (computeEmployeeDetail wStore "c1" "r1" 0 wEmployee).total_statutory_deductions =
      (computeEmployeeDetail wStore "c1" "r1" 0 wEmployee).nssf_deduction +
      (computeEmployeeDetail wStore "c1" "r1" 0 wEmployee).shif_deduction +
      (computeEmployeeDetail wStore "c1" "r1" 0 wEmployee).housing_levy_deduction +
      (computeEmployeeDetail wStore "c1" "r1" 0 wEmployee).helb_deduction +
      (computeEmployeeDetail wStore "c1" "r1" 0 wEmployee).paye_tax :=
  calculatePayroll_detail_equations wStore "c1" 1 2025 "r1" 0 rfl
    (computeEmployeeDetail wStore "c1" "r1" 0 wEmployee)
    (by
      have h : (calculatePayroll wStore "c1" 1 2025 "r1" 0).1.payroll_details =
          [computeEmployeeDetail wStore "c1" "r1" 0 wEmployee] := rfl
      rw [h]
      exact List.mem_singleton.mpr rfl)
    (by simp [wStore])

/-- C2: on every non-negative base salary the pension calculator returns
tier1 = 6% of min(base, 8000), tier2 = 6% of min(max(base − 8000, 0),
72000 − 8000), total = tier1 + tier2, the total never exceeding
6% of 72000; at base 50000 it returns tiers 480, 2520 and total 3000. -/
theorem nssf_tier_formulas :
    (∀ b : ℚ, 0 ≤ b →
      (calculateNSSF b).tier1 = 0.06 * min b 8000 ∧
      (calculateNSSF b).tier2 = 0.06 * min (max (b - 8000) 0) (72000 - 8000) ∧
      (calculateNSSF b).total = (calculateNSSF b).tier1 + (calculateNSSF b).tier2 ∧
      (calculateNSSF b).total ≤ 0.06 * 72000) ∧
    calculateNSSF 50000 = ⟨480, 2520, 3000⟩ :=
  ⟨fun b _ => ⟨calculateNSSF_tier1 b, calculateNSSF_tier2 b, calculateNSSF_total b,
    calculateNSSF_cap b⟩, by norm_num [calculateNSSF]⟩

/-- Witness for C2: the formulas and the cap instantiated at base 50000. -/
theorem nssf_tier_formulas_witness :
    (calculateNSSF 50000).tier1 = 0.06 * min 50000 8000 ∧
    (calculateNSSF 50000).total ≤ 0.06 * 72000 :=
  ⟨(nssf_tier_formulas.1 50000 (by norm_num)).1,
   (nssf_tier_formulas.1 50000 (by norm_num)).2.2.2⟩

/-- C3: on non-negative inputs the income-tax calculator is monotonically
non-decreasing, returns zero exactly when the input is at or below 24000
(the point where 10% of the input equals the 2400 relief), and its result
is never negative on any input. -/
theorem paye_monotone_zero_floor :
    (∀ x y : ℚ, 0 ≤ x → x ≤ y → calculatePAYE x ≤ calculatePAYE y) ∧
    (∀ x : ℚ, 0 ≤ x → (calculatePAYE x = 0 ↔ x ≤ 24000)) ∧
    (∀ x : ℚ, 0 ≤ calculatePAYE x) :=
  ⟨fun _ _ _ h => calculatePAYE_mono h, fun _ hx => calculatePAYE_zero_iff hx,
   calculatePAYE_nonneg⟩

/-- Witness for C3: the three properties instantiated at 20000 and 30000. -/
theorem paye_monotone_zero_floor_witness :
    calculatePAYE 20000 ≤ calculatePAYE 30000 ∧
    (calculatePAYE 20000 = 0 ↔ (20000 : ℚ) ≤ 24000) ∧
    0 ≤ calculatePAYE 20000 :=
  ⟨paye_monotone_zero_floor.1 20000 30000 (by norm_num) (by norm_num),
   paye_monotone_zero_floor.2.1 20000 (by norm_num),
   paye_monotone_zero_floor.2.2 20000⟩

/-- C4: when exactly one run is stored for the requested period and the
fresh id is unused, a `calculatePayroll` call fails with a conflict and
leaves the store untouched if that run is Completed, and on a Draft run a
successful call leaves exactly one run for the period — the freshly
created Draft — with the old run gone and none of its detail rows
remaining. -/
theorem calculatePayroll_existing_run (st : Store) (c : String) (m y : Nat) (nid : String)
    (t : ℤ) (r : PayrollRun)
    (hm : m ≠ 0) (hy : y ≠ 0)
    (hper : periodRuns st c m y = [r])
    (hfresh : ∀ x ∈ st.payroll_runs, x.id ≠ nid) :
    (r.status = .Completed → calculatePayroll st c m y nid t = (st, .conflict)) ∧
    (r.status = .Draft →
      (calculatePayroll st c m y nid t).2 = .ok →
      ((periodRuns (calculatePayroll st c m y nid t).1 c m y).length = 1 ∧
       (∀ x ∈ periodRuns (calculatePayroll st c m y nid t).1 c m y,
          x.id = nid ∧ x.status = .Draft) ∧
       (∀ x ∈ (calculatePayroll st c m y nid t).1.payroll_runs, x.id ≠ r.id) ∧
       (calculatePayroll st c m y nid t).1.payroll_details.filter
         (fun d => d.payroll_run_id == r.id) = [])) := by
  have hrmem : r ∈ st.payroll_runs := by
    have : r ∈ periodRuns st c m y := by rw [hper]; exact List.mem_singleton.mpr rfl
    exact List.mem_of_mem_filter this
  have hnidr : r.id ≠ nid := hfresh r hrmem
  constructor
  · intro hco
    unfold calculatePayroll
    rw [if_neg (by simp [hm, hy]), hper]
    show (if r.status = RunStatus.Completed then (st, CalcResult.conflict) else _) = _
    rw [if_pos hco]
  · intro hdr hok
    have hcalc : calculatePayroll st c m y nid t
        = calculatePayrollBody (deleteRunById st r.id) c m y nid t := by
      unfold calculatePayroll
      rw [if_neg (by simp [hm, hy]), hper]
      show (if r.status = RunStatus.Completed then (st, CalcResult.conflict) else _) = _
      rw [if_neg (by rw [hdr]; exact fun hcon => by cases hcon)]
    rw [hcalc] at hok ⊢
    by_cases hemp : (activeEmployees (deleteRunById st r.id) c).isEmpty
    · rw [calculatePayrollBody, if_pos hemp] at hok
      cases hok
    · set st1 := deleteRunById st r.id with hst1
      have hp1 : periodRuns st1 c m y = [] := by
        rw [hst1]
        unfold periodRuns deleteRunById
        rw [List.filter_filter, List.filter_eq_nil_iff]
        intro a ha hcond
        simp only [Bool.and_eq_true, Bool.not_eq_true'] at hcond
        obtain ⟨⟨⟨h1, h2⟩, h3⟩, h4⟩ := hcond
        have hmem : a ∈ periodRuns st c m y := by
          unfold periodRuns
          rw [List.mem_filter]
          refine ⟨ha, ?_⟩
          rw [h1, h2, h3]
          rfl
        rw [hper, List.mem_singleton] at hmem
        subst hmem
        simp at h4
      have hPnew : ((newDraftRun st1 c m y nid t).company_id == c &&
          (newDraftRun st1 c m y nid t).payroll_month == m &&
          (newDraftRun st1 c m y nid t).payroll_year == y) = true := by
        simp [newDraftRun]
      rw [calculatePayrollBody, if_neg hemp] at hok ⊢
      dsimp only
      set nr := newDraftRun st1 c m y nid t with hnr
      set gS := (((activeEmployees st1 c).map (computeEmployeeDetail st1 c nid t)).map
        (fun d => d.gross_pay)).sum with hgS
      set sS := (((activeEmployees st1 c).map (computeEmployeeDetail st1 c nid t)).map
        (fun d => d.total_statutory_deductions)).sum with hsS
      set pS := (((activeEmployees st1 c).map (computeEmployeeDetail st1 c nid t)).map
        (fun d => d.paye_tax)).sum with hpS
      set nS := (((activeEmployees st1 c).map (computeEmployeeDetail st1 c nid t)).map
        (fun d => d.net_pay)).sum with hnS
      have hcompP : ((fun x : PayrollRun => x.company_id == c && x.payroll_month == m &&
          x.payroll_year == y) ∘ applyRunTotals nid gS sS pS nS) =
          (fun x : PayrollRun => x.company_id == c && x.payroll_month == m &&
          x.payroll_year == y) := by
        funext x
        exact applyRunTotals_period c m y nid gS sS pS nS x
      have hruns : periodRuns
          ({ st1 with
             payroll_runs := (st1.payroll_runs ++ [nr]).map (applyRunTotals nid gS sS pS nS),
             payroll_details := st1.payroll_details ++
               (activeEmployees st1 c).map (computeEmployeeDetail st1 c nid t) } : Store) c m y
          = [applyRunTotals nid gS sS pS nS nr] := by
        unfold periodRuns
        dsimp only
        rw [List.filter_map, hcompP, List.filter_append]
        have h1 : st1.payroll_runs.filter (fun x : PayrollRun => x.company_id == c &&
            x.payroll_month == m && x.payroll_year == y) = [] := hp1
        rw [h1, List.filter_cons, if_pos hPnew]
        rfl
      refine ⟨?_, ?_, ?_, ?_⟩
      · rw [hruns]
        rfl
      · intro x hx
        rw [hruns, List.mem_singleton] at hx
        subst hx
        constructor
        · rw [applyRunTotals_id]
          rfl
        · rw [applyRunTotals_status]
          rfl
      · intro x hx
        rw [List.mem_map] at hx
        obtain ⟨z, hz, hxz⟩ := hx
        rw [← hxz, applyRunTotals_id]
        rcases List.mem_append.mp hz with hz1 | hz2
        · rw [hst1] at hz1
          unfold deleteRunById at hz1
          rw [List.mem_filter] at hz1
          intro hcon
          rw [hcon] at hz1
          simp at hz1
        · rw [List.mem_singleton] at hz2
          subst hz2
          exact fun hcon => hnidr hcon.symm
      · rw [List.filter_append]
        have h1 : st1.payroll_details.filter (fun d => d.payroll_run_id == r.id) = [] := by
          rw [hst1]
          unfold deleteRunById
          dsimp only
          rw [List.filter_filter, List.filter_eq_nil_iff]
          intro a _ hcond
          simp only [Bool.and_eq_true, Bool.not_eq_true'] at hcond
          rw [hcond.2] at hcond
          simp at hcond
        have h2 : ((activeEmployees st1 c).map (computeEmployeeDetail st1 c nid t)).filter
            (fun d => d.payroll_run_id == r.id) = [] := by
          rw [List.filter_map, List.filter_eq_nil_iff.mpr, List.map_nil]
          intro a _ hcond
          simp only [Function.comp_apply] at hcond
          have : (computeEmployeeDetail st1 c nid t a).payroll_run_id = nid := rfl
          rw [this] at hcond
          rw [beq_iff_eq] at hcond
          exact hnidr hcond.symm
        rw [h1, h2]
        rfl

/-- Witness for C4: after recalculating over an existing Draft, exactly one
run remains for the period. -/
theorem calculatePayroll_existing_run_witness :
    (periodRuns (calculatePayroll dStore "c1" 1 2025 "r2" 0).1 "c1" 1 2025).length = 1 :=
  ((calculatePayroll_existing_run dStore "c1" 1 2025 "r2" 0 dRun (by decide) (by decide) rfl
    (by decide)).2 rfl rfl).1

end Payroll

namespace Payroll

/-- C5: `completePayrollRun` succeeds only from Draft — on a run in any
other status it fails and leaves the store untouched, and that includes a
second call after a successful completion; a successful call reduces every
loan ledger entry by exactly the sum of the positive loan deductions its
employee has among the run's details, deactivates the tenant's one-time
deductions, and sets the run's status to Completed. -/
theorem completePayrollRun_spec (st : Store) (rid : String) (run : PayrollRun)
    (hfind : st.payroll_runs.find? (fun r => r.id == rid) = some run) :
    (run.status ≠ .Draft → completePayrollRun st rid = (st, .invalidState)) ∧
    (run.status = .Draft →
      (completePayrollRun st rid).2 = .ok ∧
      ((completePayrollRun st rid).1.payroll_runs.find? (fun r => r.id == rid)).map
          (fun r => r.status) = some .Completed ∧
      completePayrollRun (completePayrollRun st rid).1 rid =
        ((completePayrollRun st rid).1, .invalidState) ∧
      (completePayrollRun st rid).1.helb_deductions = st.helb_deductions.map (fun h =>
        { h with balance := h.balance - posHelbSum (st.payroll_details.filter (fun d => d.payroll_run_id == rid)) h.employee_id }) ∧
      (completePayrollRun st rid).1.deductions = st.deductions.map (fun d =>
        if d.is_one_time && d.company_id == run.company_id then { d with is_active := false }
        else d)) := by
  have hpr0 := find?_pred _ _ _ hfind
  have hpr : (run.id == rid) = true := hpr0
  refine ⟨completePayrollRun_not_draft st rid run hfind, ?_⟩
  intro hdr
  have hout : completePayrollRun st rid =
      ({ st with
         helb_deductions := applyHelbUpdates st.helb_deductions
           (st.payroll_details.filter (fun d => d.payroll_run_id == rid)),
         deductions := st.deductions.map (fun d =>
           if d.is_one_time && d.company_id == run.company_id then { d with is_active := false }
           else d),
         payroll_runs := st.payroll_runs.map (fun r =>
           if r.id == rid then { r with status := RunStatus.Completed } else r) }, .ok) := by
    unfold completePayrollRun completePayrollRunWith
    rw [hfind]
    simp [hdr]
  have hfind2 : ((completePayrollRun st rid).1.payroll_runs.find? (fun r => r.id == rid)) =
      some { run with status := RunStatus.Completed } := by
    rw [hout, find?_status_map, hfind]
    simp only [Option.map_some']
    rw [if_pos hpr]
  refine ⟨by rw [hout], ?_, ?_, ?_, ?_⟩
  · rw [hfind2]
    rfl
  · exact completePayrollRun_not_draft _ _ _ hfind2 (by simp)
  · rw [hout, applyHelbUpdates_eq]
  · rw [hout]

/-- Witness for C5: completing the sample Draft run succeeds. -/
theorem completePayrollRun_spec_witness :
    (completePayrollRun dStore "run1").2 = .ok :=
  ((completePayrollRun_spec dStore "run1" dRun rfl).2 rfl).1

/-- C6 (divergence witness): in the execution where the final status update
fails, `completePayrollRun` has already reduced the loan ledger (9000 to
8000 here) and reports a server error while the run is still in Draft —
the completion side effects are not gated on the status transition
committing. -/
theorem side_effects_before_commit :
    (completePayrollRunWith c6Store "run6" false).2 = .storeFailure ∧
    ((completePayrollRunWith c6Store "run6" false).1.payroll_runs.find?
      (fun r => r.id == "run6")).map (fun r => r.status) = some .Draft ∧
    (completePayrollRunWith c6Store "run6" false).1.helb_deductions.map
      (fun h => h.balance) = [8000] ∧
    c6Store.helb_deductions.map (fun h => h.balance) = [9000] := by
  refine ⟨rfl, rfl, ?_, rfl⟩
  have h : (completePayrollRunWith c6Store "run6" false).1.helb_deductions.map
      (fun h => h.balance) = [(9000 : ℚ) - 1000] := rfl
  rw [h]
  norm_num

/-- C7 (amended): the variable-pay filters select exactly the assignments
that target the employee or the employee's department, are active, belong
to the company, and whose end date is absent or at/after the as-of date —
the start of the validity window is not consulted. -/
theorem applies_characterization (companyId : String) (e : Employee) (asOf : ℤ) :
    (∀ a : Allowance, allowanceApplies companyId e asOf a = true ↔
      ((a.employee_id = some e.id ∨ a.department_id = some e.department_id) ∧
       a.is_active = true ∧
       (a.end_date = none ∨ ∃ dEnd, a.end_date = some dEnd ∧ asOf ≤ dEnd) ∧
       a.company_id = companyId)) ∧
    (∀ d : Deduction, deductionApplies companyId e asOf d = true ↔
      ((d.employee_id = some e.id ∨ d.department_id = some e.department_id) ∧
       d.is_active = true ∧
       (d.end_date = none ∨ ∃ dEnd, d.end_date = some dEnd ∧ asOf ≤ dEnd) ∧
       d.company_id = companyId)) := by
  constructor
  · intro a
    unfold allowanceApplies
    cases hE : a.end_date with
    | none =>
      simp [hE]
      tauto
    | some dEnd =>
      simp [hE]
      tauto
  · intro d
    unfold deductionApplies
    cases hE : d.end_date with
    | none =>
      simp [hE]
      tauto
    | some dEnd =>
      simp [hE]
      tauto

/-- C7 (counterexample to the claim as stated): an active assignment whose
validity window starts on day 100 is selected by the implemented filter on
day 50, although its window does not contain that date, and its amount is
included in the computed detail. -/
theorem start_date_not_filtered :
    allowanceApplies "c1" wEmployee 50 futureAllowance = true ∧
    allowanceAppliesSpec "c1" wEmployee 50 futureAllowance = false ∧
    (computeEmployeeDetail c7Store "c1" "r1" 50 wEmployee).total_allowances = 500 := by
  refine ⟨rfl, rfl, ?_⟩
  have h : (computeEmployeeDetail c7Store "c1" "r1" 50 wEmployee).total_allowances
      = [(500 : ℚ)].sum := rfl
  rw [h]
  simp

/-- C8: on every non-negative gross pay the health levy is 2.75% of gross
and the housing levy 1.5% of gross, both rounded half-up to the nearest
whole currency unit; at gross 50000 they are 1375 and 750. -/
theorem levy_round_half_up (g : ℚ) (hg : 0 ≤ g) :
    calculateSHIF g = ((roundHalfUpSpec (0.0275 * g) : ℤ) : ℚ) ∧
    calculateHousingLevy g = ((roundHalfUpSpec (0.015 * g) : ℤ) : ℚ) ∧
    calculateSHIF 50000 = 1375 ∧ calculateHousingLevy 50000 = 750 := by
  refine ⟨?_, ?_, ?_, ?_⟩
  · unfold calculateSHIF
    rw [jsRound_eq_roundHalfUpSpec, mul_comm]
  · unfold calculateHousingLevy
    rw [jsRound_eq_roundHalfUpSpec, mul_comm]
  · norm_num [calculateSHIF, jsRound]
  · norm_num [calculateHousingLevy, jsRound]

/-- Witness for C8: the rounding identity and the pinned values at gross
50000. -/
theorem levy_round_half_up_witness :
    calculateSHIF 50000 = ((roundHalfUpSpec (0.0275 * 50000) : ℤ) : ℚ) ∧
    calculateSHIF 50000 = 1375 :=
  ⟨(levy_round_half_up 50000 (by norm_num)).1,
   (levy_round_half_up 50000 (by norm_num)).2.2.1⟩

/-- C9 (amended): a negative base is not rejected by the calculators — the
income-tax calculator silently clamps to zero, the pension calculator
returns 6% of the (negative) base — and `calculatePayroll` still succeeds
and persists a detail row for an employee whose stored salary is
negative. -/
theorem negative_base_not_rejected :
    (∀ x : ℚ, x < 0 → calculatePAYE x = 0 ∧ (calculateNSSF x).total = x * 0.06) ∧
    (calculatePayroll negStore "c9" 1 2025 "r9" 0).2 = .ok ∧
    (calculatePayroll negStore "c9" 1 2025 "r9" 0).1.payroll_details.length = 1 := by
  refine ⟨?_, rfl, rfl⟩
  intro x hx
  constructor
  · unfold calculatePAYE
    rw [if_pos (by linarith : x ≤ 24000)]
    dsimp only
    rw [max_eq_left (by linarith)]
  · unfold calculateNSSF
    dsimp only
    rw [if_neg (by push_neg; linarith : ¬x > 8000), min_eq_left (by linarith : x ≤ 8000)]
    ring

/-- Witness for C9's amended statement: the calculators at base −1000. -/
theorem negative_base_not_rejected_witness :
    calculatePAYE (-1000) = 0 ∧ (calculateNSSF (-1000)).total = -1000 * 0.06 :=
  negative_base_not_rejected.1 (-1000) (by norm_num)

/-- C9 (counterexample to the claim as stated): with a negative stored
salary the payroll run does not abort — it succeeds and persists a detail
row. -/
theorem payroll_run_persists_negative_salary :
    (calculatePayroll negStore "c9" 1 2025 "r9" 0).2 = .ok ∧
    (calculatePayroll negStore "c9" 1 2025 "r9" 0).1.payroll_details ≠ [] ∧
    negEmployee.salary < 0 := by
  refine ⟨rfl, ?_, by norm_num [negEmployee]⟩
  have h : (calculatePayroll negStore "c9" 1 2025 "r9" 0).1.payroll_details =
      [computeEmployeeDetail negStore "c9" "r9" 0 negEmployee] := rfl
  rw [h]
  simp

/-- C10: the health-levy deduction of a computed detail is the SHIF amount
exactly when the employee's `shif_number` is truthy and an explicit zero
otherwise; the computation is insensitive to the `pays_shif` flag, while
pension, housing levy, income tax and loan are each gated by their own
boolean flag. -/
theorem shif_gated_by_number (st : Store) (c rid : String) (t : ℤ) (e : Employee) (b : Bool) :
    (computeEmployeeDetail st c rid t e).shif_deduction =
      (if strTruthy e.shif_number then
        calculateSHIF ((computeEmployeeDetail st c rid t e).gross_pay) else 0) ∧
    (strTruthy e.shif_number = false →
      (computeEmployeeDetail st c rid t e).shif_deduction = 0) ∧
    computeEmployeeDetail st c rid t { e with pays_shif := b } =
      computeEmployeeDetail st c rid t e ∧
    (e.pays_nssf = false → (computeEmployeeDetail st c rid t e).nssf_deduction = 0) ∧
    (e.pays_housing_levy = false →
      (computeEmployeeDetail st c rid t e).housing_levy_deduction = 0) ∧
    (e.pays_paye = false → (computeEmployeeDetail st c rid t e).paye_tax = 0) ∧
    (e.pays_helb = false → (computeEmployeeDetail st c rid t e).helb_deduction = 0) := by
  refine ⟨rfl, ?_, ?_, ?_, ?_, ?_, ?_⟩
  · intro h
    unfold computeEmployeeDetail
    dsimp only
    rw [h]
    rfl
  · cases e
    rfl
  · intro h
    unfold computeEmployeeDetail
    dsimp only
    rw [h]
    rfl
  · intro h
    unfold computeEmployeeDetail
    dsimp only
    rw [h]
    rfl
  · intro h
    unfold computeEmployeeDetail
    dsimp only
    rw [h]
    rfl
  · intro h
    unfold computeEmployeeDetail
    dsimp only
    rw [h]
    rfl

/-- Witness for C10: the opted-out employee without a SHIF number gets
explicit zeros. -/
theorem shif_gated_by_number_witness :
    (computeEmployeeDetail wStore "c1" "r1" 0 optOutEmployee).shif_deduction = 0 ∧
    (computeEmployeeDetail wStore "c1" "r1" 0 optOutEmployee).nssf_deduction = 0 :=
  ⟨(shif_gated_by_number wStore "c1" "r1" 0 optOutEmployee true).2.1 rfl,
   (shif_gated_by_number wStore "c1" "r1" 0 optOutEmployee true).2.2.2.1 rfl⟩

end Payroll
